import Mathlib

/-!
Verification development for the multi-camera FPS monitor (`check_fps.cpp`).

The per-stream supervisor (`Camera::run`), the status registry (`fps_map`,
a `std::map<std::string,int>`), the reporter (`print_fps`), the stream-list
reader (`read_camera_uris`) and the command-line handling in `main` are
embedded as executable Lean functions.  C++ `int` values are modelled as
unbounded `Int` (no computation here approaches the 32-bit range except
`std::stoi`'s own range check, which is modelled explicitly); C++ integer
division, undefined for a zero divisor, is modelled as an `Option`.
-/

namespace CheckFps

/-- C++ integer division (`/` on `int`): truncated toward zero, undefined
when the divisor is zero (`check_fps.cpp:79` divides by `interval` with no
guard). -/
def cppDiv (a b : Int) : Option Int :=
  if b = 0 then none else some (Int.tdiv a b)

/-- Per-stream mutable state touched by one sampling window of
`Camera::run`: the frame counter (`frame_count`, reset each window) and the
stream's entry in `downtime_map`. -/
structure CamState where
  frameCount : Int
  downtime : Int
deriving DecidableEq, Repr

/-- State set up by the constructor `Camera::Camera` (check_fps.cpp:20-22):
`frame_count(0)` and `downtime_map[name] = -1`. -/
def initCamState : CamState :=
  { frameCount := 0, downtime := -1 }

/-- The stall policy of `Camera::run` (check_fps.cpp:88-98), applied after
the fps for the window is known: if `fps == 0`, increment the downtime
counter and, when it has reached 5, reconnect (flag `true`) and reset the
counter to 0; otherwise reset the counter to 0.  Returns the new downtime
counter and whether a reconnect was issued. -/
def stallPolicy (fps d : Int) : Int × Bool :=
  if fps = 0 then
    let d1 := d + 1
    if 5 ≤ d1 then (0, true) else (d1, false)
  else (0, false)

/-- One sampling window of `Camera::run` (check_fps.cpp:78-99): compute
`fps = frame_count / interval`, zero the frame counter, apply the stall
policy.  `restartOk` stands for the success of the `stop()`/`start()` pair
run on a reconnect; in the source their return values only affect logging
(check_fps.cpp:59-63, 68-72), so the parameter is unused.  Returns the new
state, the fps published to `fps_map`, and the reconnect flag.  `none`
models the undefined division when `interval = 0`. -/
def windowStep (restartOk : Bool) (interval : Int) (st : CamState) :
    Option (CamState × Int × Bool) :=
  match cppDiv st.frameCount interval with
  | none => none
  | some fps =>
      let p := stallPolicy fps st.downtime
      some ({ frameCount := 0, downtime := p.1 }, fps, p.2)

/-- Frame delivery during a window: `Camera::on_new_sample`
(check_fps.cpp:138-149) increments `frame_count` once per delivered frame;
`f` frames delivered add `f` to the counter. -/
def deliverFrames (st : CamState) (f : Int) : CamState :=
  { st with frameCount := st.frameCount + f }

/-- Run the supervisor loop over a list of windows, `frames` giving the
number of frames delivered during each window.  The log records, per
window, the published fps, the reconnect flag, and the downtime counter
after the window. -/
def runCam (restartOk : Bool) (interval : Int) (st : CamState) :
    List Int → Option (CamState × List (Int × Bool × Int))
  | [] => some (st, [])
  | f :: rest =>
      match windowStep restartOk interval (deliverFrames st f) with
      | none => none
      | some (st', fps, r) =>
          match runCam restartOk interval st' rest with
          | none => none
          | some (stFin, log) => some (stFin, (fps, r, st'.downtime) :: log)

/-! ### Status registry (`fps_map`, a `std::map<std::string,int>`) -/

/-- Lexicographic comparison of character lists, the order of C++
`std::string::operator<` (which `std::map<std::string, ...>` sorts by). -/
def charListLt : List Char → List Char → Bool
  | [], [] => false
  | [], _ :: _ => true
  | _ :: _, [] => false
  | a :: as, b :: bs =>
      if a.toNat < b.toNat then true
      else if b.toNat < a.toNat then false
      else charListLt as bs

/-- Comparison of two stream identifiers, as `std::string` compares. -/
def strLt (a b : String) : Bool := charListLt a.data b.data

/-- The status registry: an association list sorted by key in strictly
ascending order, the model of `std::map<std::string,int>` (`fps_map`,
check_fps.cpp:15). -/
abbrev Registry := List (String × Int)

/-- Ordered insert-or-assign: `fps_map[name] = fps` on a `std::map`. -/
def mapSet : Registry → String → Int → Registry
  | [], k, v => [(k, v)]
  | (k', v') :: rest, k, v =>
      if strLt k k' then (k, v) :: (k', v') :: rest
      else if k = k' then (k, v) :: rest
      else (k', v') :: mapSet rest k v

/-- Lookup in the registry (`fps_map.find` semantics). -/
def lookupReg : Registry → String → Option Int
  | [], _ => none
  | (k', v') :: rest, k => if k = k' then some v' else lookupReg rest k

/-- Number of entries a key has in the registry. -/
def keyCount : Registry → String → Nat
  | [], _ => 0
  | e :: rest, k => (if e.1 = k then 1 else 0) + keyCount rest k

/-- Test that `k` is strictly below the first key of the registry
(vacuously true of the empty registry). -/
def ltHead (k : String) : Registry → Bool
  | [] => true
  | e :: _ => strLt k e.1

/-- The registry's keys are strictly ascending — the invariant of a
`std::map`'s underlying ordered representation. -/
def sortedKeysB : Registry → Bool
  | [] => true
  | e :: rest => ltHead e.1 rest && sortedKeysB rest

/-- The operations performed on `fps_map` while the system runs: a
supervisor publishing a sample (`fps_map[name] = fps`,
check_fps.cpp:85) and the reporter reading it under the lock
(`print_fps`, check_fps.cpp:194-220, which only iterates).  No operation
in the source erases entries. -/
inductive RegOp where
  | publish : String → Int → RegOp
  | report : RegOp
deriving DecidableEq

/-- Effect of one registry operation on the registry contents. -/
def applyOp (reg : Registry) : RegOp → Registry
  | .publish k v => mapSet reg k v
  | .report => reg

/-- Effect of a sequence of registry operations. -/
def applyOps (reg : Registry) : List RegOp → Registry
  | [] => reg
  | op :: rest => applyOps (applyOp reg op) rest

/-! ### Reporter (`print_fps`, check_fps.cpp:190-223) -/

/-- Wrap a string in the red highlight used for degraded entries
(`"\033[1;31m" ... "\033[0m"`, check_fps.cpp:210). -/
def redWrap (s : String) : String :=
  "\x1b[1;31m" ++ s ++ "\x1b[0m"

/-- The text of one registry entry: `<id>: <fps> FPS`. -/
def entryText (e : String × Int) : String :=
  e.1 ++ ": " ++ toString e.2 ++ " FPS"

/-- Rendering of one entry by `print_fps` (check_fps.cpp:208-214): red
highlight exactly when `entry.second < 5`. -/
def renderEntry (e : String × Int) : String :=
  if e.2 < 5 then redWrap (entryText e) else entryText e

/-- The reporter's inner loop (check_fps.cpp:206-220) as the list of
strings it sends to `std::cout`: each entry's rendering, followed by
`", "` while `current < count`. -/
def reporterTokens (total : Nat) : Nat → List (String × Int) → List String
  | _, [] => []
  | current, e :: rest =>
      renderEntry e ::
        ((if current + 1 < total then [", "] else []) ++
          reporterTokens total (current + 1) rest)

/-- The entries part of one reporter line. -/
def renderEntriesCode (entries : List (String × Int)) : String :=
  String.join (reporterTokens entries.length 0 entries)

/-- The timestamp part of one reporter line
(`"[\033[1;34m" << put_time << "]\033[0m "`, check_fps.cpp:204). -/
def timestampPart (ts : String) : String :=
  "[" ++ "\x1b[1;34m" ++ ts ++ "]" ++ "\x1b[0m" ++ " "

/-- One full reporter line for a snapshot of the registry. -/
def renderLine (ts : String) (entries : List (String × Int)) : String :=
  timestampPart ts ++ renderEntriesCode entries

/-- Separator-interspersed rendering, the spec's reading of
"comma-separated" (`[<timestamp>] id1: n1 FPS, id2: n2 FPS, ...`); to be
compared against `renderLine`. -/
def renderLineSpec (ts : String) (entries : List (String × Int)) : String :=
  timestampPart ts ++
    String.join (List.intersperse ", " (entries.map renderEntry))

/-! ### Loop guards (`Camera::run` and `print_fps`) -/

/-- Continuation test of the supervisor loop: `while (running)`
(check_fps.cpp:76); `Camera::set_running(false)` makes it false. -/
def cameraLoopContinues (running : Bool) : Bool := running

/-- Continuation test of the reporter loop: `while (true)`
(check_fps.cpp:191).  The loop consults no stop flag at all, so its guard
is `true` whatever stop request has been made. -/
def printFpsContinues (stopRequested : Bool) : Bool := true

/-! ### Stream-list reader (`read_camera_uris`, check_fps.cpp:168-188) -/

/-- Indexing loop of `read_camera_uris`: non-empty lines get identifiers
`cam0, cam1, ...` in order; empty lines are skipped without consuming an
index. -/
def indexLines : List String → Nat → List (String × String)
  | [], _ => []
  | l :: rest, i =>
      if l = "" then indexLines rest i
      else ("cam" ++ toString i, l) :: indexLines rest (i + 1)

/-- Model of `read_camera_uris`: `none` models a file that cannot be
opened, in which case the function logs and returns the empty map
(check_fps.cpp:172-175); otherwise the file's lines are indexed. -/
def read_camera_uris (fileContents : Option (List String)) :
    List (String × String) :=
  match fileContents with
  | none => []
  | some lines => indexLines lines 0

/-! ### Command line (`main`, check_fps.cpp:225-233) -/

/-- Whitespace skipped by `std::stoi` (the `isspace` set). -/
def isSpaceChar (c : Char) : Bool :=
  c = ' ' || c = '\t' || c = '\n' || c = '\x0b' || c = '\x0c' || c = '\r'

/-- Leading-digit parse: the value of the longest digit prefix, `none`
when there is no digit (whereupon `std::stoi` throws
`std::invalid_argument`). -/
def parseDigits (cs : List Char) : Option Int :=
  let ds := cs.takeWhile Char.isDigit
  if ds = [] then none
  else some (ds.foldl (fun acc c => acc * 10 + ((c.toNat : Int) - 48)) 0)

/-- Range check for `int`: out-of-range values make `std::stoi` throw
`std::out_of_range`. -/
def intRange (v : Int) : Option Int :=
  if v < -2147483648 ∨ 2147483647 < v then none else some v

/-- Model of `std::stoi` on the interval argument: skip whitespace,
optional sign, longest digit run (trailing characters ignored); `none`
when it throws. -/
def stoiModel (s : String) : Option Int :=
  match s.data.dropWhile isSpaceChar with
  | '-' :: rest => (parseDigits rest).bind (fun v => intRange (-v))
  | '+' :: rest => (parseDigits rest).bind intRange
  | cs => (parseDigits cs).bind intRange

/-- Outcome of `main`'s argument and configuration handling:
`usage` = usage message printed and `return 1`; `crash` = uncaught
`std::stoi` exception terminates the process (non-zero status, no usage
message); `run interval cameras` = the monitoring phase starts. -/
inductive MainOutcome where
  | usage : MainOutcome
  | crash : MainOutcome
  | run : Int → List (String × String) → MainOutcome
deriving DecidableEq

/-- Model of `main` up to the start of monitoring (check_fps.cpp:228-250): `args`
is `argv` without the program name, `fileContents` the state of
`../cameras.txt`.  `argc < 2` prints usage and returns 1; then
`std::stoi(argv[1])` runs unguarded; then `read_camera_uris` provides the
camera map and the run proceeds whatever that map is. -/
def mainModel (args : List String) (fileContents : Option (List String)) :
    MainOutcome :=
  match args with
  | [] => .usage
  | a :: _ =>
      match stoiModel a with
      | none => .crash
      | some n => .run n (read_camera_uris fileContents)

/-! ### Per-stream setup (`main`'s loop, check_fps.cpp:246-251) -/

/-- Environment of one camera's external collaborator: whether the
GStreamer elements could be created (`Camera::Camera`,
check_fps.cpp:28-31) and whether the PLAYING transition succeeded
(`Camera::start`, check_fps.cpp:59-63).  In the source both failures only
print a diagnostic. -/
structure CamEnv where
  elementsOk : Bool
  startOk : Bool
deriving DecidableEq

/-- Diagnostic lines the setup of one camera can emit. -/
inductive LogEvent where
  | elementsFailed : String → LogEvent
  | startFailed : String → LogEvent
  | started : String → LogEvent
deriving DecidableEq

/-- Setup of one camera by `main`'s loop body (check_fps.cpp:247-250):
construct (an element-creation failure logs and returns early, the object
is still produced), call `start()` (a state-change failure logs), and
hand the camera to a supervisor thread.  No failure alters control
flow. -/
def setupOne (env : CamEnv) (cam : String × String) :
    List LogEvent × (String × String) :=
  ((if env.elementsOk then [] else [LogEvent.elementsFailed cam.2]) ++
    (if env.startOk then [LogEvent.started cam.2]
     else [LogEvent.startFailed cam.2]),
   cam)

/-- Setup loop of `main` over all configured cameras
(check_fps.cpp:246-251): every entry is constructed, started and
supervised in order; the loop has no break, return or throw, so a
failing camera never stops the loop or the process. -/
def setupLoop : List ((String × String) × CamEnv) →
    List LogEvent × List (String × String)
  | [] => ([], [])
  | (cam, env) :: rest =>
      let one := setupOne env cam
      let more := setupLoop rest
      (one.1 ++ more.1, one.2 :: more.2)

end CheckFps

open CheckFps

/-- C1: in one sampling window, if the computed fps is 0 the downtime
counter is incremented; when the incremented counter is ≥ 5 a reconnect is
issued and the counter is reset to 0 (regardless of restart success,
final conjunct); when it is < 5 no reconnect happens; if fps > 0 the
counter is reset to 0 and no reconnect happens. -/
theorem c1_stall_policy (ok : Bool) (i : Int) (st st' : CamState)
    (fps : Int) (r : Bool)
    (h : windowStep ok i st = some (st', fps, r)) :
    (fps = 0 →
      (st.downtime + 1 < 5 → st'.downtime = st.downtime + 1 ∧ r = false) ∧
      (5 ≤ st.downtime + 1 → r = true ∧ st'.downtime = 0)) ∧
    (0 < fps → st'.downtime = 0 ∧ r = false) ∧
    (∀ ok2 : Bool, windowStep ok2 i st = windowStep ok i st) := by
  unfold windowStep at h ⊢
  cases hdiv : cppDiv st.frameCount i with
  | none => rw [hdiv] at h; exact absurd h (by simp)
  | some q =>
      rw [hdiv] at h
      simp only [Option.some.injEq, Prod.mk.injEq] at h
      obtain ⟨hst, hfps, hr⟩ := h
      subst hst hfps hr
      refine ⟨?_, ?_, fun ok2 => rfl⟩
      · intro h0
        constructor
        · intro hlt
          simp [stallPolicy, h0, not_le.mpr hlt]
        · intro hge
          simp [stallPolicy, h0, hge]
      · intro hpos
        have hne : q ≠ 0 := by omega
        simp [stallPolicy, hne]

/-- Helper: what one window does to the downtime counter. -/
theorem windowStep_downtime (ok : Bool) (i : Int) (st st' : CamState)
    (fps : Int) (r : Bool)
    (h : windowStep ok i st = some (st', fps, r)) :
    st'.frameCount = 0 ∧
    (fps = 0 →
      (st'.downtime = st.downtime + 1 ∧ r = false) ∨
      (st'.downtime = 0 ∧ r = true)) ∧
    (fps ≠ 0 → st'.downtime = 0 ∧ r = false) ∧
    (-1 ≤ st.downtime → 0 ≤ st'.downtime) := by
  unfold windowStep at h
  cases hdiv : cppDiv st.frameCount i with
  | none => rw [hdiv] at h; exact absurd h (by simp)
  | some q =>
      rw [hdiv] at h
      simp only [Option.some.injEq, Prod.mk.injEq] at h
      obtain ⟨hst, hfps, hr⟩ := h
      subst hst hfps hr
      refine ⟨rfl, ?_, ?_, ?_⟩
      · intro h0
        by_cases hge : 5 ≤ st.downtime + 1
        · exact Or.inr (by simp [stallPolicy, h0, hge])
        · exact Or.inl (by simp [stallPolicy, h0, hge])
      · intro hne
        simp [stallPolicy, hne]
      · intro hd
        by_cases h0 : q = 0
        · by_cases hge : 5 ≤ st.downtime + 1
          · simp [stallPolicy, h0, hge]
          · simp [stallPolicy, h0, hge]; omega
        · simp [stallPolicy, h0]

/-- Helper: along a run started with a downtime counter ≥ −1, every
window's logged downtime value is non-negative, and every window with
positive fps logs downtime 0. -/
theorem runCam_log_downtime (ok : Bool) (i : Int) :
    ∀ (frames : List Int) (st : CamState), -1 ≤ st.downtime →
    ∀ (stFin : CamState) (log : List (Int × Bool × Int)),
    runCam ok i st frames = some (stFin, log) →
    ∀ e ∈ log, 0 ≤ e.2.2 ∧ (0 < e.1 → e.2.2 = 0)
  | [], st, _, stFin, log, h => by
      simp only [runCam, Option.some.injEq, Prod.mk.injEq] at h
      obtain ⟨-, hlog⟩ := h
      subst hlog
      intro e he
      exact absurd he (List.not_mem_nil e)
  | f :: rest, st, hd, stFin, log, h => by
      unfold runCam at h
      split at h
      · exact absurd h (by simp)
      · rename_i st' fps r hw
        split at h
        · exact absurd h (by simp)
        · rename_i stF2 log2 hrec
          simp only [Option.some.injEq, Prod.mk.injEq] at h
          obtain ⟨-, hlog⟩ := h
          subst hlog
          have hstep := windowStep_downtime ok i (deliverFrames st f)
            st' fps r hw
          have hd' : -1 ≤ (deliverFrames st f).downtime := hd
          have hnn : 0 ≤ st'.downtime := hstep.2.2.2 hd'
          intro e he
          rcases List.mem_cons.mp he with heq | htl
          · subst heq
            exact ⟨hnn, fun hpos => (hstep.2.2.1 (by omega)).1⟩
          · exact runCam_log_downtime ok i rest st' (by omega)
              stF2 log2 hrec e htl

/-- Witness for C1 at a concrete window: frames 0, interval 1, downtime 4. -/
theorem c1_stall_policy_witness :
    ((0 : Int) = 0 →
      ((4 : Int) + 1 < 5 → (0 : Int) = (4 : Int) + 1 ∧ true = false) ∧
      (5 ≤ (4 : Int) + 1 → true = true ∧ (0 : Int) = 0)) ∧
    ((0 : Int) < 0 → (0 : Int) = 0 ∧ true = false) ∧
    windowStep false 1 { frameCount := 0, downtime := 4 } =
      windowStep true 1 { frameCount := 0, downtime := 4 } := by
  have h := c1_stall_policy true 1 { frameCount := 0, downtime := 4 }
    { frameCount := 0, downtime := 0 } 0 true (by decide)
  exact ⟨h.1, h.2.1, h.2.2 false⟩

/-- C2 counterexample: with the supervisor just constructed
(`downtime_map[name] = -1`), five consecutive zero-frame windows at
interval 1 do NOT issue a reconnect — every reconnect flag in the log is
`false` and the counter stands at 4, not 0, after the 5th window.  This
refutes "a reconnect is issued exactly once immediately after the 5th
consecutive zero window". -/
theorem c2_counterexample :
    runCam true 1 initCamState [0, 0, 0, 0, 0] =
      some ({ frameCount := 0, downtime := 4 },
        [(0, false, 0), (0, false, 1), (0, false, 2),
         (0, false, 3), (0, false, 4)]) := by
  decide

/-- C2 amended: from construction, with every window delivering 0 frames,
the reconnect is issued exactly once, immediately after the 6th zero
window (the counter starts at −1), and the counter is 0 immediately after;
the outcome does not depend on whether the restart succeeds. -/
theorem c2_first_reconnect :
    runCam true 1 initCamState [0, 0, 0, 0, 0, 0] =
      some ({ frameCount := 0, downtime := 0 },
        [(0, false, 0), (0, false, 1), (0, false, 2),
         (0, false, 3), (0, false, 4), (0, true, 0)]) ∧
    runCam false 1 initCamState [0, 0, 0, 0, 0, 0] =
      runCam true 1 initCamState [0, 0, 0, 0, 0, 0] := by
  constructor <;> decide

/-- Helper: after `mapSet reg k v`, looking up `k` yields `v`. -/
theorem lookupReg_mapSet_self (reg : Registry) (k : String) (v : Int) :
    lookupReg (mapSet reg k v) k = some v := by
  induction reg with
  | nil => simp [mapSet, lookupReg]
  | cons e rest ih =>
      obtain ⟨k', v'⟩ := e
      by_cases h1 : strLt k k' = true
      · simp [mapSet, h1, lookupReg]
      · by_cases h2 : k = k'
        · subst h2; simp [mapSet, h1, lookupReg]
        · simp [mapSet, h1, h2, lookupReg, ih]

/-- C3: in any sampling window with a positive interval, the published fps
is the window's frame count divided by the interval (C++ integer
division), the frame counter is reset to exactly 0, and writing the fps
into the registry under the stream's identifier makes it the value found
there. -/
theorem c3_fps_formula (ok : Bool) (i : Int) (st st' : CamState)
    (fps : Int) (r : Bool) (reg : Registry) (id : String)
    (hi : 0 < i)
    (h : windowStep ok i st = some (st', fps, r)) :
    fps = Int.tdiv st.frameCount i ∧ st'.frameCount = 0 ∧
    lookupReg (mapSet reg id fps) id = some fps := by
  have hne : i ≠ 0 := by omega
  have hcpp : cppDiv st.frameCount i = some (Int.tdiv st.frameCount i) := by
    simp [cppDiv, hne]
  unfold windowStep at h
  rw [hcpp] at h
  simp only [Option.some.injEq, Prod.mk.injEq] at h
  obtain ⟨hst, hfps, hr⟩ := h
  exact ⟨hfps.symm, by rw [← hst], by
    rw [lookupReg_mapSet_self]⟩

/-- Witness for C3: interval 2, 7 frames in the window. -/
theorem c3_fps_formula_witness :
    (3 : Int) = Int.tdiv 7 2 ∧ (0 : Int) = 0 ∧
    lookupReg (mapSet [] "cam0" 3) "cam0" = some 3 :=
  c3_fps_formula true 2 { frameCount := 7, downtime := 0 }
    { frameCount := 0, downtime := 0 } 3 false [] "cam0"
    (by decide) (by decide)

/-- C4 counterexample, refuting both parts of the claim: at construction
(`Camera::Camera` sets `downtime_map[name] = -1`) the downtime counter is
−1, which is negative; and the counter is not reset on a window with a
positive frame count — the code resets only on positive fps, so a window
delivering 3 frames at interval 5 computes `fps = 3 / 5 = 0` and
increments the counter from 0 to 1 instead of resetting it. -/
theorem c4_counterexample :
    (initCamState.downtime = -1 ∧ ¬ (0 ≤ initCamState.downtime)) ∧
    windowStep true 5 { frameCount := 3, downtime := 0 } =
      some ({ frameCount := 0, downtime := 1 }, 0, false) := by
  decide

/-- C4 amended: the counter is initialized to −1 at construction; after
every sampling window of any run from construction it is non-negative,
and it is 0 after every window whose computed fps is positive (the reset
is keyed on the published fps, not on the raw frame count: a window with
a positive frame count below the interval computes fps 0 and increments
the counter, as the counterexample shows). -/
theorem c4_downtime_nonneg (ok : Bool) (i : Int) (frames : List Int)
    (stFin : CamState) (log : List (Int × Bool × Int))
    (e : Int × Bool × Int)
    (hrun : runCam ok i initCamState frames = some (stFin, log))
    (he : e ∈ log) :
    initCamState.downtime = -1 ∧ 0 ≤ e.2.2 ∧ (0 < e.1 → e.2.2 = 0) := by
  have h := runCam_log_downtime ok i frames initCamState (by decide)
    stFin log hrun e he
  exact ⟨rfl, h.1, h.2⟩

/-- Witness for C4: one window with 3 frames at interval 1. -/
theorem c4_downtime_nonneg_witness :
    initCamState.downtime = -1 ∧ (0 : Int) ≤ 0 ∧ ((0 : Int) < 3 → (0 : Int) = 0) :=
  c4_downtime_nonneg true 1 [3] { frameCount := 0, downtime := 0 }
    [(3, false, 0)] (3, false, 0) (by decide) (by decide)

/-- Helper: `b ≠ true` gives `b = false`. -/
theorem boolNotTrue (b : Bool) (h : ¬ b = true) : b = false := by
  cases b
  · rfl
  · exact absurd rfl h

/-- Helper: `charListLt` is irreflexive. -/
theorem charListLt_irrefl : ∀ cs : List Char, charListLt cs cs = false
  | [] => rfl
  | c :: cs => by
      unfold charListLt
      rw [if_neg (Nat.lt_irrefl _), if_neg (Nat.lt_irrefl _)]
      exact charListLt_irrefl cs

/-- Helper: `charListLt` is transitive. -/
theorem charListLt_trans : ∀ a b c : List Char,
    charListLt a b = true → charListLt b c = true → charListLt a c = true
  | [], [], _, hab, _ => by simp [charListLt] at hab
  | [], _ :: _, [], _, hbc => by simp [charListLt] at hbc
  | [], _ :: _, _ :: _, _, _ => rfl
  | _ :: _, [], _, hab, _ => by simp [charListLt] at hab
  | _ :: _, _ :: _, [], _, hbc => by simp [charListLt] at hbc
  | a :: as, b :: bs, c :: cs, hab, hbc => by
      simp only [charListLt] at hab hbc ⊢
      by_cases h1 : a.toNat < b.toNat
      · by_cases h2 : b.toNat < c.toNat
        · rw [if_pos (by omega)]
        · rw [if_neg h2] at hbc
          by_cases h3 : c.toNat < b.toNat
          · simp [h3] at hbc
          · rw [if_pos (by omega)]
      · rw [if_neg h1] at hab
        by_cases h3 : b.toNat < a.toNat
        · simp [h3] at hab
        · rw [if_neg h3] at hab
          by_cases h2 : b.toNat < c.toNat
          · rw [if_pos (by omega)]
          · rw [if_neg h2] at hbc
            by_cases h4 : c.toNat < b.toNat
            · simp [h4] at hbc
            · rw [if_neg h4] at hbc
              rw [if_neg (show ¬ a.toNat < c.toNat by omega),
                if_neg (show ¬ c.toNat < a.toNat by omega)]
              exact charListLt_trans as bs cs hab hbc

/-- Helper: if `a` is not below `b` and differs from it, `b` is below `a`. -/
theorem charListLt_flip : ∀ a b : List Char,
    charListLt a b = false → a ≠ b → charListLt b a = true
  | [], [], _, hne => absurd rfl hne
  | [], _ :: _, hab, _ => by simp [charListLt] at hab
  | _ :: _, [], _, _ => rfl
  | a :: as, b :: bs, hab, hne => by
      simp only [charListLt] at hab ⊢
      by_cases h1 : a.toNat < b.toNat
      · simp [h1] at hab
      · by_cases h2 : b.toNat < a.toNat
        · rw [if_pos h2]
        · rw [if_neg h1, if_neg h2] at hab
          have htn : a.toNat = b.toNat := by omega
          have heq : a = b := Char.eq_of_val_eq (UInt32.ext htn)
          subst heq
          rw [if_neg h2, if_neg h2]
          have hne' : as ≠ bs := fun h => hne (by rw [h])
          exact charListLt_flip as bs hab hne'

/-- Helper: a string is its character data. -/
theorem strDataEq (s t : String) (h : s.data = t.data) : s = t := by
  cases s; cases t; simp only at h; rw [h]

/-- Helper: `strLt` is irreflexive. -/
theorem strLt_irrefl (s : String) : strLt s s = false :=
  charListLt_irrefl s.data

/-- Helper: `strLt` is transitive. -/
theorem strLt_trans (a b c : String) (h1 : strLt a b = true)
    (h2 : strLt b c = true) : strLt a c = true :=
  charListLt_trans a.data b.data c.data h1 h2

/-- Helper: two incomparable strings are equal, flipped form. -/
theorem strLt_flip (a b : String) (h : strLt a b = false) (hne : a ≠ b) :
    strLt b a = true :=
  charListLt_flip a.data b.data h (fun hd => hne (strDataEq a b hd))

/-- Helper: `strLt` implies distinctness. -/
theorem strLt_ne (a b : String) (h : strLt a b = true) : a ≠ b := by
  intro he
  subst he
  rw [strLt_irrefl] at h
  exact absurd h (by simp)

/-- Helper: unfolding equation for `sortedKeysB` on a cons cell. -/
theorem sortedKeysB_cons (e : String × Int) (rest : Registry) :
    sortedKeysB (e :: rest) = (ltHead e.1 rest && sortedKeysB rest) := rfl

/-- Helper: unfolding equation for `ltHead` on a cons cell. -/
theorem ltHead_cons (k : String) (e : String × Int) (rest : Registry) :
    ltHead k (e :: rest) = strLt k e.1 := rfl

/-- Helper: `ltHead` descends along `strLt`. -/
theorem ltHead_of_lt (k k2 : String) (reg : Registry)
    (h : strLt k k2 = true) (h2 : ltHead k2 reg = true) :
    ltHead k reg = true := by
  cases reg with
  | nil => rfl
  | cons e rest => exact strLt_trans k k2 e.1 h h2

/-- Helper: inserting a key above `k0` keeps `k0` below the head. -/
theorem ltHead_mapSet (reg : Registry) (k0 k : String) (v : Int)
    (h0 : ltHead k0 reg = true) (hk : strLt k0 k = true) :
    ltHead k0 (mapSet reg k v) = true := by
  cases reg with
  | nil => exact hk
  | cons e rest =>
      obtain ⟨k', v'⟩ := e
      rw [ltHead_cons] at h0
      simp only [mapSet]
      by_cases h1 : strLt k k' = true
      · rw [if_pos h1, ltHead_cons]
        exact hk
      · rw [if_neg h1]
        by_cases h2 : k = k'
        · rw [if_pos h2, ltHead_cons]
          exact hk
        · rw [if_neg h2, ltHead_cons]
          exact h0

/-- Helper: `mapSet` preserves the sorted-keys invariant. -/
theorem mapSet_sorted (reg : Registry) (k : String) (v : Int)
    (hs : sortedKeysB reg = true) : sortedKeysB (mapSet reg k v) = true := by
  induction reg with
  | nil => rfl
  | cons e rest ih =>
      obtain ⟨k', v'⟩ := e
      rw [sortedKeysB_cons, Bool.and_eq_true] at hs
      obtain ⟨hh, hrest⟩ := hs
      simp only [mapSet]
      by_cases h1 : strLt k k' = true
      · rw [if_pos h1, sortedKeysB_cons, Bool.and_eq_true]
        refine ⟨h1, ?_⟩
        rw [sortedKeysB_cons, Bool.and_eq_true]
        exact ⟨hh, hrest⟩
      · rw [if_neg h1]
        by_cases h2 : k = k'
        · subst h2
          rw [if_pos rfl, sortedKeysB_cons, Bool.and_eq_true]
          exact ⟨hh, hrest⟩
        · have hlt : strLt k' k = true :=
            strLt_flip k k' (boolNotTrue _ h1) h2
          rw [if_neg h2, sortedKeysB_cons, Bool.and_eq_true]
          exact ⟨ltHead_mapSet rest k' k v hh hlt, ih hrest⟩

/-- Helper: a key below the head of a sorted registry has no entry. -/
theorem keyCount_zero_of_ltHead : ∀ (reg : Registry) (k : String),
    sortedKeysB reg = true → ltHead k reg = true → keyCount reg k = 0
  | [], _, _, _ => rfl
  | (k', v') :: rest, k, hs, hl => by
      simp only [sortedKeysB, Bool.and_eq_true] at hs
      have hlt : strLt k k' = true := hl
      have hne : k' ≠ k := Ne.symm (strLt_ne k k' hlt)
      simp only [keyCount, if_neg hne, Nat.zero_add]
      exact keyCount_zero_of_ltHead rest k hs.2
        (ltHead_of_lt k k' rest hlt hs.1)

/-- Helper: after `mapSet reg k v` on a sorted registry, `k` has exactly
one entry. -/
theorem keyCount_mapSet_self : ∀ (reg : Registry) (k : String) (v : Int),
    sortedKeysB reg = true → keyCount (mapSet reg k v) k = 1
  | [], k, v, _ => by simp [mapSet, keyCount]
  | (k', v') :: rest, k, v, hs => by
      simp only [sortedKeysB, Bool.and_eq_true] at hs
      obtain ⟨hh, hrest⟩ := hs
      by_cases h1 : strLt k k' = true
      · have hne : k' ≠ k := Ne.symm (strLt_ne k k' h1)
        have h0 : keyCount rest k = 0 :=
          keyCount_zero_of_ltHead rest k hrest (ltHead_of_lt k k' rest h1 hh)
        simp [mapSet, h1, keyCount, hne, h0]
      · by_cases h2 : k = k'
        · subst h2
          have h0 : keyCount rest k = 0 :=
            keyCount_zero_of_ltHead rest k hrest hh
          simp [mapSet, h1, keyCount, h0]
        · have hne : k' ≠ k := fun hE => h2 hE.symm
          simp only [mapSet, if_neg h1, if_neg h2, keyCount,
            if_neg hne, Nat.zero_add]
          exact keyCount_mapSet_self rest k v hrest

/-- Helper: `mapSet` with a different key leaves `k`'s entry count
unchanged. -/
theorem keyCount_mapSet_other : ∀ (reg : Registry) (k k2 : String) (v : Int),
    k ≠ k2 → keyCount (mapSet reg k2 v) k = keyCount reg k
  | [], k, k2, v, hne => by
      simp [mapSet, keyCount, show k2 ≠ k from fun h => hne h.symm]
  | (k', v') :: rest, k, k2, v, hne => by
      by_cases h1 : strLt k2 k' = true
      · simp [mapSet, h1, keyCount, show k2 ≠ k from fun h => hne h.symm]
      · by_cases h2 : k2 = k'
        · subst h2
          simp [mapSet, h1, keyCount, show k2 ≠ k from fun h => hne h.symm]
        · simp only [mapSet, if_neg h1, if_neg h2, keyCount]
          rw [keyCount_mapSet_other rest k k2 v hne]

/-- Helper: `mapSet` never removes a present key. -/
theorem lookupReg_mapSet_preserve : ∀ (reg : Registry) (k k2 : String)
    (v : Int), (lookupReg reg k).isSome = true →
    (lookupReg (mapSet reg k2 v) k).isSome = true
  | [], k, k2, v, h => by simp [lookupReg] at h
  | (k', v') :: rest, k, k2, v, h => by
      by_cases he : k = k2
      · subst he
        rw [lookupReg_mapSet_self]
        rfl
      · by_cases h1 : strLt k2 k' = true
        · simpa [mapSet, h1, lookupReg, he] using h
        · by_cases h2 : k2 = k'
          · subst h2
            simp only [lookupReg, if_neg (show k ≠ k2 from he)] at h
            simpa [mapSet, h1, lookupReg, he] using h
          · by_cases h3 : k = k'
            · simp [mapSet, h1, h2, lookupReg, h3]
            · simp only [lookupReg, if_neg h3] at h
              simpa [mapSet, h1, h2, lookupReg, h3] using
                lookupReg_mapSet_preserve rest k k2 v h

/-- Helper: any operation sequence keeps the registry sorted. -/
theorem sorted_applyOps : ∀ (ops : List RegOp) (reg : Registry),
    sortedKeysB reg = true → sortedKeysB (applyOps reg ops) = true
  | [], _, h => h
  | op :: rest, reg, h => by
      cases op with
      | publish k v => exact sorted_applyOps rest _ (mapSet_sorted reg k v h)
      | report => exact sorted_applyOps rest reg h

/-- Helper: any operation sequence keeps a uniquely-present key uniquely
present. -/
theorem keyCount_applyOps : ∀ (ops : List RegOp) (reg : Registry)
    (k : String), sortedKeysB reg = true → keyCount reg k = 1 →
    keyCount (applyOps reg ops) k = 1
  | [], _, _, _, h1 => h1
  | op :: rest, reg, k, hs, h1 => by
      cases op with
      | report => exact keyCount_applyOps rest reg k hs h1
      | publish k2 v =>
          by_cases he : k2 = k
          · subst he
            exact keyCount_applyOps rest _ k2 (mapSet_sorted reg k2 v hs)
              (keyCount_mapSet_self reg k2 v hs)
          · refine keyCount_applyOps rest _ k (mapSet_sorted reg k2 v hs) ?_
            show keyCount (mapSet reg k2 v) k = 1
            rw [keyCount_mapSet_other reg k k2 v (fun h => he h.symm)]
            exact h1

/-- C5: the registry starts empty and stays key-sorted under every
operation sequence; publishing a stream's sample gives its identifier
exactly one entry; that uniqueness is preserved by every later operation
sequence; and no single operation ever removes a present identifier. -/
theorem c5_registry_invariant :
    (∀ ops : List RegOp, sortedKeysB (applyOps ([] : Registry) ops) = true) ∧
    (∀ (reg : Registry) (k : String) (v : Int), sortedKeysB reg = true →
      keyCount (mapSet reg k v) k = 1) ∧
    (∀ (reg : Registry) (ops : List RegOp) (k : String),
      sortedKeysB reg = true → keyCount reg k = 1 →
      keyCount (applyOps reg ops) k = 1) ∧
    (∀ (reg : Registry) (op : RegOp) (k : String),
      (lookupReg reg k).isSome = true →
      (lookupReg (applyOp reg op) k).isSome = true) := by
  refine ⟨fun ops => sorted_applyOps ops [] rfl, keyCount_mapSet_self,
    fun reg ops k hs h1 => keyCount_applyOps ops reg k hs h1,
    fun reg op k h => ?_⟩
  cases op with
  | publish k2 v => exact lookupReg_mapSet_preserve reg k k2 v h
  | report => exact h

/-- Witness for C5 on a concrete registry and operation sequence. -/
theorem c5_registry_invariant_witness :
    sortedKeysB (applyOps ([] : Registry)
      [RegOp.publish "cam1" 7, RegOp.publish "cam0" 0, RegOp.report]) = true ∧
    keyCount (mapSet [("cam0", 2)] "cam1" 9) "cam1" = 1 ∧
    keyCount (applyOps [("cam0", 2)]
      [RegOp.publish "cam0" 5, RegOp.publish "cam1" 3, RegOp.report])
      "cam0" = 1 ∧
    (lookupReg (applyOp [("cam0", 2)] (RegOp.publish "cam1" 1))
      "cam0").isSome = true :=
  ⟨c5_registry_invariant.1 _,
   c5_registry_invariant.2.1 _ "cam1" 9 (by decide),
   c5_registry_invariant.2.2.1 _ _ "cam0" (by decide) (by decide),
   c5_registry_invariant.2.2.2 _ _ "cam0" (by decide)⟩

/-- Helper: unfolding equation for `reporterTokens` on a cons cell. -/
theorem reporterTokens_cons (total current : Nat) (e : String × Int)
    (rest : List (String × Int)) :
    reporterTokens total current (e :: rest) =
      renderEntry e :: ((if current + 1 < total then [", "] else []) ++
        reporterTokens total (current + 1) rest) := rfl

/-- Helper: the reporter's comma-unless-last loop produces exactly the
comma-interspersed entry renderings, provided the running index is
consistent with the total. -/
theorem reporterTokens_intersperse : ∀ (entries : List (String × Int))
    (current total : Nat), total = current + entries.length →
    reporterTokens total current entries =
      List.intersperse ", " (entries.map renderEntry)
  | [], _, _, _ => rfl
  | [e], current, total, h => by
      have hnot : ¬ (current + 1 < total) := by
        simp only [List.length_cons, List.length_nil] at h
        omega
      simp [reporterTokens, hnot]
  | e :: r :: rs, current, total, h => by
      have hlt : current + 1 < total := by
        simp only [List.length_cons] at h
        omega
      have ih := reporterTokens_intersperse (r :: rs) (current + 1) total
        (by simp only [List.length_cons] at h ⊢; omega)
      rw [reporterTokens_cons, if_pos hlt, ih]
      simp [List.intersperse_cons_cons]

/-- C6: the reporter line is the timestamp part followed by the entries
rendered in snapshot order separated by `", "` (the code's
comma-unless-last loop refines the interspersed form); the registry a
snapshot iterates is key-sorted after any sequence of writes, whatever
their arrival order; and an entry is rendered with the red warning
highlight exactly when its fps is strictly below 5. -/
theorem c6_reporter_line :
    (∀ (ts : String) (entries : List (String × Int)),
      renderLine ts entries = renderLineSpec ts entries) ∧
    (∀ ops : List RegOp,
      sortedKeysB (applyOps ([] : Registry) ops) = true) ∧
    (∀ e : String × Int, e.2 < 5 → renderEntry e = redWrap (entryText e)) ∧
    (∀ e : String × Int, 5 ≤ e.2 → renderEntry e = entryText e) := by
  refine ⟨?_, fun ops => sorted_applyOps ops [] rfl, ?_, ?_⟩
  · intro ts entries
    unfold renderLine renderLineSpec renderEntriesCode
    rw [reporterTokens_intersperse entries 0 entries.length (by omega)]
  · intro e h
    simp [renderEntry, h]
  · intro e h
    simp [renderEntry, not_lt.mpr h]

/-- Witness for C6 on a concrete snapshot: a degraded and a healthy
stream. -/
theorem c6_reporter_line_witness :
    renderLine "12:10:2026 10:00:00" [("camA", 3), ("camB", 12)] =
      renderLineSpec "12:10:2026 10:00:00" [("camA", 3), ("camB", 12)] ∧
    sortedKeysB (applyOps ([] : Registry)
      [RegOp.publish "camB" 12, RegOp.publish "camA" 3]) = true ∧
    renderEntry ("camA", 3) = redWrap (entryText ("camA", 3)) ∧
    renderEntry ("camB", 12) = entryText ("camB", 12) :=
  ⟨c6_reporter_line.1 _ _, c6_reporter_line.2.1 _,
   c6_reporter_line.2.2.1 _ (by decide), c6_reporter_line.2.2.2 _ (by decide)⟩

/-- C7 (code evaluation): the supervisor loop's guard is the `running`
flag, so `set_running(false)` ends it; but the reporter loop's guard is
the constant `true` — `print_fps` consults no stop flag whatsoever, so no
stop request makes its guard false, the loop never terminates, and
`fps_thread.join()` at check_fps.cpp:265 can never return. -/
theorem c7_reporter_guard :
    (∀ stopRequested : Bool, printFpsContinues stopRequested = true) ∧
    cameraLoopContinues false = false :=
  ⟨fun _ => rfl, rfl⟩

/-- C8 counterexample: when the stream-list file cannot be opened,
`read_camera_uris` returns the empty map and `main` proceeds to the
monitoring phase with zero streams — the failure is not fatal to the run,
refuting the claim. -/
theorem c8_counterexample :
    read_camera_uris none = [] ∧
    mainModel ["1"] none = MainOutcome.run 1 [] := by
  constructor
  · rfl
  · decide

/-- Helper: the setup loop supervises every configured camera, in order,
whatever each camera's element-creation or start outcome is. -/
theorem setupLoop_monitors_all : ∀ cams : List ((String × String) × CamEnv),
    (setupLoop cams).2 = cams.map Prod.fst
  | [] => rfl
  | (cam, env) :: rest => by
      simp only [setupLoop, setupOne, List.map_cons]
      rw [setupLoop_monitors_all rest]

/-- C8 amended: a stream-list read failure is logged and yields the empty
stream set; the run proceeds (with whatever set the reader produced)
whenever the interval argument parses — it is not fatal; and no single
stream's failure aborts the process: the setup loop constructs, starts
and supervises every configured stream regardless of per-stream
element-creation or start failures, which only log. -/
theorem c8_config_failure_nonfatal (a : String) (rest : List String)
    (n : Int) (fc : Option (List String))
    (h : stoiModel a = some n) :
    mainModel (a :: rest) fc = MainOutcome.run n (read_camera_uris fc) ∧
    read_camera_uris none = [] ∧
    (∀ cams : List ((String × String) × CamEnv),
      (setupLoop cams).2 = cams.map Prod.fst) := by
  refine ⟨?_, rfl, setupLoop_monitors_all⟩
  simp [mainModel, h]

/-- Witness for C8 at interval argument "1", an unopenable file, and a
two-camera setup in which the first camera fails both element creation
and start. -/
theorem c8_config_failure_nonfatal_witness :
    mainModel ["1"] none = MainOutcome.run 1 (read_camera_uris none) ∧
    read_camera_uris none = [] ∧
    (setupLoop
      [(("cam0", "rtsp://bad"), { elementsOk := false, startOk := false }),
       (("cam1", "rtsp://good"), { elementsOk := true, startOk := true })]).2 =
      [("cam0", "rtsp://bad"), ("cam1", "rtsp://good")] :=
  ⟨(c8_config_failure_nonfatal "1" [] 1 none (by decide)).1,
   (c8_config_failure_nonfatal "1" [] 1 none (by decide)).2.1,
   (c8_config_failure_nonfatal "1" [] 1 none (by decide)).2.2
     [(("cam0", "rtsp://bad"), { elementsOk := false, startOk := false }),
      (("cam1", "rtsp://good"), { elementsOk := true, startOk := true })]⟩

/-- C9 counterexample: on the unparsable interval argument "abc" the
program does not print the usage message and exit — `std::stoi` throws
and the process terminates via an uncaught exception (`crash`), which is
a different outcome than `usage`. -/
theorem c9_counterexample :
    mainModel ["abc"] (some ["rtsp://x"]) = MainOutcome.crash ∧
    MainOutcome.crash ≠ MainOutcome.usage := by
  constructor
  · decide
  · decide

/-- C9 amended: with no interval argument the program prints the usage
message and exits non-zero; with an argument `std::stoi` cannot parse it
terminates through an uncaught exception (non-zero status, no usage
message); otherwise it proceeds with the parsed interval. -/
theorem c9_cli_handling (a : String) (rest : List String)
    (fc : Option (List String)) (n : Int) :
    mainModel [] fc = MainOutcome.usage ∧
    (stoiModel a = none → mainModel (a :: rest) fc = MainOutcome.crash) ∧
    (stoiModel a = some n →
      mainModel (a :: rest) fc =
        MainOutcome.run n (read_camera_uris fc)) := by
  refine ⟨rfl, ?_, ?_⟩
  · intro h
    simp [mainModel, h]
  · intro h
    simp [mainModel, h]

/-- Witness for C9: empty argument list, "abc", and "5". -/
theorem c9_cli_handling_witness :
    mainModel [] (some []) = MainOutcome.usage ∧
    mainModel ["abc"] (some []) = MainOutcome.crash ∧
    mainModel ["5"] (some []) = MainOutcome.run 5 (read_camera_uris (some [])) :=
  ⟨(c9_cli_handling "abc" [] (some []) 0).1,
   (c9_cli_handling "abc" [] (some []) 0).2.1 (by decide),
   (c9_cli_handling "5" [] (some []) 5).2.2 (by decide)⟩

/-- C10: the argument "0" is accepted by the parser with value 0 and the
run proceeds with interval 0; at that interval the supervisor's window
computation `frame_count / interval` is an integer division by zero
(undefined, modelled `none`), so the whole sampling step is undefined;
for every positive interval the division is defined. -/
theorem c10_interval_zero :
    stoiModel "0" = some 0 ∧
    (∀ fc : Option (List String),
      mainModel ["0"] fc = MainOutcome.run 0 (read_camera_uris fc)) ∧
    (∀ f : Int, cppDiv f 0 = none) ∧
    (∀ (ok : Bool) (st : CamState), windowStep ok 0 st = none) ∧
    (∀ f i : Int, 0 < i → (cppDiv f i).isSome = true) := by
  refine ⟨by decide, ?_, ?_, ?_, ?_⟩
  · intro fc
    simp [mainModel, show stoiModel "0" = some 0 by decide]
  · intro f
    simp [cppDiv]
  · intro ok st
    simp [windowStep, cppDiv]
  · intro f i hi
    simp [cppDiv, show i ≠ 0 by omega]

/-- Witness for C10 at frame count 7 and intervals 0 and 3. -/
theorem c10_interval_zero_witness :
    stoiModel "0" = some 0 ∧
    mainModel ["0"] none = MainOutcome.run 0 (read_camera_uris none) ∧
    cppDiv 7 0 = none ∧
    windowStep true 0 initCamState = none ∧
    (cppDiv 7 3).isSome = true :=
  ⟨c10_interval_zero.1, c10_interval_zero.2.1 none,
   c10_interval_zero.2.2.1 7, c10_interval_zero.2.2.2.1 true initCamState,
   c10_interval_zero.2.2.2.2 7 3 (by decide)⟩
